import Mathlib

/-!
Shallow embedding of the listener-selection and serving logic of the
`prometheus_exporter_helper` repository (package `helper`, file `main.go`).

The effectful Go code is embedded as pure Lean functions over an explicit
environment that supplies the results of all external calls
(`net.Listen`, `activation.Listeners`, the ziti SDK, `web.ServeMultiple`,
`web.NewLandingPage`, `os.Remove`).  Each embedded function returns a trace
recording the observable effects it performed (which sources were consulted,
which handlers were registered, which listeners were opened, closed and
handed to the serve loop) together with a process-level result
(return value, `os.Exit`, or panic).
-/

set_option autoImplicit false

/-- An abstract live network listener (Go `net.Listener`); only identity matters. -/
structure NetListener where
  id : Nat
  deriving DecidableEq, Repr

/-- Go error values that flow through the helper.  `serverClosed` is the
sentinel `http.ErrServerClosed`; `noListeners` is `web.ErrNoListeners`
(defined in the external exporter-toolkit collaborator); `errorNew msg` is a
value created by `errors.New(msg)` in the source of this repository; `ioError msg`
stands for an arbitrary error produced by an external call. -/
inductive Err where
  | serverClosed
  | noListeners
  | errorNew (msg : String)
  | ioError (msg : String)
  deriving DecidableEq, Repr

/-- Environment for `CreateZitiListener` (main.go lines 200-236): outcomes of
the external calls it makes.  `identityAccessible` is true when `os.Stat` on
the identity file succeeds and the file is not a directory. -/
structure ZitiEnv where
  identityAccessible : Bool
  configLoad : Except String Unit
  contextNew : Except String Unit
  listen : Except String NetListener

/-- Outcome of `CreateZitiListener`: returned `nil` (identity file not
accessible), panicked (config/context creation failed), called `os.Exit`
(service bind failed), or returned a live listener. -/
inductive ZitiOutcome where
  | unavailable
  | panicked (msg : String)
  | exited (code : Nat)
  | got (l : NetListener)
  deriving DecidableEq, Repr

/-- Embedding of `CreateZitiListener` (main.go lines 200-236).  If the
identity file is not accessible it warns and returns nil; a config or context
error panics; a bind error logs and exits with status 1; otherwise the ziti
listener is returned. -/
def CreateZitiListener (z : ZitiEnv) : ZitiOutcome :=
  if z.identityAccessible then
    match z.configLoad with
    | .error m => .panicked m
    | .ok _ =>
      match z.contextNew with
      | .error m => .panicked m
      | .ok _ =>
        match z.listen with
        | .error _ => .exited 1
        | .ok l => .got l
  else
    .unavailable

/-- Go `strings.HasPrefix(s, p)`, modelled on the character sequences. -/
def goHasPrefix (s p : String) : Bool :=
  p.data.isPrefixOf s.data

/-- Go `strings.HasSuffix(s, suf)`, modelled on the character sequences. -/
def goHasSuffix (s suf : String) : Bool :=
  suf.data.isSuffixOf s.data

/-- Classification test from `createListener` (main.go line 242):
`strings.HasPrefix(address, "/") && (strings.HasSuffix(address, ".socket") ||
strings.HasSuffix(address, ".sock"))`. -/
def isUnixSocket (address : String) : Bool :=
  goHasPrefix address "/" && (goHasSuffix address ".socket" || goHasSuffix address ".sock")

/-- Environment for `createListener`: the result of `net.Listen` for a given
network type and address, and whether `os.Remove` on a given path fails. -/
structure ListenerEnv where
  netListen : String → String → Except Err NetListener
  removeFails : String → Bool

/-- The signal handler installed for unix sockets: on SIGINT/SIGTERM it
removes `removesPath` and calls `os.Exit exitCode`. -/
structure SignalHandlerSpec where
  removesPath : String
  exitCode : Nat
  deriving DecidableEq, Repr

/-- Trace of one `createListener` call (main.go lines 238-264):
the network type passed to `net.Listen`, the signal handler registered (if
any), the path whose removal is deferred to run when `createListener`
returns (if any), whether a failing removal was logged as a warning, and the
returned listener-or-error. -/
structure CreateListenerTrace where
  listenType : String
  signalHandler : Option SignalHandlerSpec
  deferredRemoval : Option String
  warnedRemovalFailure : Bool
  result : Except Err NetListener
  deriving Repr

/-- Embedding of `createListener` (main.go lines 238-264).  The listen type
starts as "tcp"; if the address classifies as a unix socket it becomes
"unix", a SIGINT/SIGTERM handler removing the socket file and exiting with
status 1 is registered, and removal of the socket file is deferred to the
own return of the function (a failing removal only logs a warning).  Finally
`net.Listen(listenType, address)` is returned. -/
def createListener (le : ListenerEnv) (address : String) : CreateListenerTrace :=
  if isUnixSocket address then
    { listenType := "unix"
      signalHandler := some { removesPath := address, exitCode := 1 }
      deferredRemoval := some address
      warnedRemovalFailure := le.removeFails address
      result := le.netListen "unix" address }
  else
    { listenType := "tcp"
      signalHandler := none
      deferredRemoval := none
      warnedRemovalFailure := false
      result := le.netListen "tcp" address }

/-- Result of the address-opening loop in `listenAndServe` (main.go lines
295-304): the addresses attempted in order, the listeners opened in order,
and the first open failure if any (which stops the loop). -/
structure OpenResult where
  attempted : List String
  opened : List NetListener
  failure : Option Err
  deriving Repr

/-- The sequential open loop of main.go lines 297-304: open each address in
configured order, stopping at (and returning) the first failure. -/
def openListeners (f : String → Except Err NetListener) : List String → OpenResult
  | [] => { attempted := [], opened := [], failure := none }
  | a :: rest =>
    match f a with
    | .error e => { attempted := [a], opened := [], failure := some e }
    | .ok l =>
      let r := openListeners f rest
      { attempted := a :: r.attempted, opened := l :: r.opened, failure := r.failure }

/-- The listener a successful `f` produced at `a` (only meaningful when
`f a` is `.ok`). -/
def okValue (f : String → Except Err NetListener) (a : String) : NetListener :=
  match f a with
  | .ok l => l
  | .error _ => { id := 0 }

/-- How the control flow of an embedded function ended: a normal return carrying
a Go error value (or nil), `os.Exit code` (deferred functions do not run),
a panic (deferred functions do run), or a nil-pointer dereference panic. -/
inductive ProcResult where
  | ret (e : Option Err)
  | exit (code : Nat)
  | panicked (msg : String)
  | nilDeref
  deriving DecidableEq, Repr

/-- Environment for `listenAndServe` (main.go lines 266-312): the flag
configuration (`zitiOnly` is `*e.zitiConfig.ZitiOnly`; the two toolkit flags
are pointers, embedded as `Option`), the ziti environment, the result of
`activation.Listeners()`, the listener environment for `createListener`,
and the error returned by the external `web.ServeMultiple` (`none` = nil). -/
structure Env where
  zitiOnly : Bool
  webSystemdSocket : Option Bool
  webListenAddresses : Option (List String)
  ziti : ZitiEnv
  activationListeners : Except Err (List NetListener)
  lenv : ListenerEnv
  serveMultiple : List NetListener → Option Err

/-- The value `*WebSystemdSocket` guarded by the nil check of main.go line 283:
`WebSystemdSocket != nil && *WebSystemdSocket`. -/
def systemdRequested : Option Bool → Bool
  | some b => b
  | none => false

/-- The test `WebListenAddresses == nil || len(*WebListenAddresses) == 0`
(main.go line 279). -/
def addrsMissing : Option (List String) → Bool
  | none => true
  | some l => l.length == 0

/-- Trace of one `listenAndServe` call: how many times the ziti extension
provider was invoked, whether `activation.Listeners()` was called, the
addresses passed to `createListener` in order, the listener set handed to
`web.ServeMultiple` (`none` if it was never called), the listeners closed by
the deferred `Close` calls when the function unwound, and the control-flow
result. -/
structure ServeTrace where
  zitiCalls : Nat
  activationConsulted : Bool
  openAttempts : List String
  served : Option (List NetListener)
  closedOnReturn : List NetListener
  result : ProcResult
  deriving Repr

/-- Embedding of `listenAndServe` (main.go lines 266-312), branch by branch:

1. ziti-only mode: invoke `CreateZitiListener`; nil is fatal (`os.Exit 1`),
   otherwise serve exactly that listener.
2. systemd-socket pointer nil and address list nil or empty: return
   `web.ErrNoListeners`.
3. systemd socket requested: `activation.Listeners()`; a retrieval error is
   returned as-is, fewer than one descriptor yields
   `errors.New("no socket activation file descriptors found")`,
   otherwise serve the activation listeners.
4. otherwise: open each configured address in order via `createListener`
   (each successful listener gets a deferred `Close`), aborting on the first
   failure; then invoke `CreateZitiListener` once, appending its listener if
   non-nil; serve the combined list. -/
def listenAndServe (env : Env) : ServeTrace :=
  if env.zitiOnly then
    match CreateZitiListener env.ziti with
    | .unavailable =>
      { zitiCalls := 1, activationConsulted := false, openAttempts := []
        served := none, closedOnReturn := [], result := .exit 1 }
    | .panicked m =>
      { zitiCalls := 1, activationConsulted := false, openAttempts := []
        served := none, closedOnReturn := [], result := .panicked m }
    | .exited c =>
      { zitiCalls := 1, activationConsulted := false, openAttempts := []
        served := none, closedOnReturn := [], result := .exit c }
    | .got l =>
      { zitiCalls := 1, activationConsulted := false, openAttempts := []
        served := some [l], closedOnReturn := []
        result := .ret (env.serveMultiple [l]) }
  else if env.webSystemdSocket.isNone && addrsMissing env.webListenAddresses then
    { zitiCalls := 0, activationConsulted := false, openAttempts := []
      served := none, closedOnReturn := [], result := .ret (some .noListeners) }
  else if systemdRequested env.webSystemdSocket then
    match env.activationListeners with
    | .error e =>
      { zitiCalls := 0, activationConsulted := true, openAttempts := []
        served := none, closedOnReturn := [], result := .ret (some e) }
    | .ok ls =>
      if ls.length < 1 then
        { zitiCalls := 0, activationConsulted := true, openAttempts := []
          served := none, closedOnReturn := []
          result := .ret (some (.errorNew "no socket activation file descriptors found")) }
      else
        { zitiCalls := 0, activationConsulted := true, openAttempts := []
          served := some ls, closedOnReturn := [], result := .ret (env.serveMultiple ls) }
  else
    match env.webListenAddresses with
    | none =>
      { zitiCalls := 0, activationConsulted := false, openAttempts := []
        served := none, closedOnReturn := [], result := .nilDeref }
    | some addrs =>
      let r := openListeners (fun a => (createListener env.lenv a).result) addrs
      match r.failure with
      | some e =>
        { zitiCalls := 0, activationConsulted := false, openAttempts := r.attempted
          served := none, closedOnReturn := r.opened.reverse, result := .ret (some e) }
      | none =>
        match CreateZitiListener env.ziti with
        | .unavailable =>
          { zitiCalls := 1, activationConsulted := false, openAttempts := r.attempted
            served := some r.opened, closedOnReturn := r.opened.reverse
            result := .ret (env.serveMultiple r.opened) }
        | .panicked m =>
          { zitiCalls := 1, activationConsulted := false, openAttempts := r.attempted
            served := none, closedOnReturn := r.opened.reverse, result := .panicked m }
        | .exited c =>
          { zitiCalls := 1, activationConsulted := false, openAttempts := r.attempted
            served := none, closedOnReturn := [], result := .exit c }
        | .got l =>
          { zitiCalls := 1, activationConsulted := false, openAttempts := r.attempted
            served := some (r.opened ++ [l]), closedOnReturn := r.opened.reverse
            result := .ret (env.serveMultiple (r.opened ++ [l])) }

/-- Kind of HTTP handler registered via `e.HandlerSetter`. -/
inductive HandlerKind where
  | prom
  | landing
  deriving DecidableEq, Repr

/-- Environment for `ListenAndServe` (main.go lines 166-198): the metrics
path and landing-page flag, the result of the external
`web.NewLandingPage`, and the environment of the inner `listenAndServe`. -/
structure AppEnv where
  metricsPath : String
  landingPageFlag : Bool
  landingPageCreation : Except String Unit
  serve : Env

/-- Trace of `ListenAndServe`: the (path, handler) registrations performed
in order, and the control-flow result (`.ret none` = returned nil). -/
structure AppTrace where
  registrations : List (String × HandlerKind)
  result : ProcResult
  deriving Repr

/-- The comparison `errors.Is(err, target)` specialised to the sentinel comparison of
main.go line 194 (no wrapping occurs in this code path). -/
def errorsIs : Option Err → Err → Bool
  | none, _ => false
  | some e, target => e == target

/-- The error translation of main.go lines 194-197: a returned error that is
`http.ErrServerClosed` becomes a nil return, any other return value passes
through; `os.Exit` and panics propagate unchanged. -/
def afterServe : ProcResult → ProcResult
  | .ret e => if errorsIs e .serverClosed then .ret none else .ret e
  | r => r

/-- Embedding of `ListenAndServe` (main.go lines 166-198): register the
metrics handler on the metrics path; if the metrics path differs from "/"
and "" and the landing page is enabled, build the landing page (a build
error logs and exits with status 1) and register it on "/"; then run
`listenAndServe`, mapping its `http.ErrServerClosed` result to nil. -/
def ListenAndServe (env : AppEnv) : AppTrace :=
  let regs : List (String × HandlerKind) := [(env.metricsPath, .prom)]
  if env.metricsPath ≠ "/" ∧ env.metricsPath ≠ "" ∧ env.landingPageFlag = true then
    match env.landingPageCreation with
    | .error _ => { registrations := regs, result := .exit 1 }
    | .ok _ =>
      { registrations := regs ++ [("/", .landing)]
        result := afterServe (listenAndServe env.serve).result }
  else
    { registrations := regs, result := afterServe (listenAndServe env.serve).result }

/-- Embedding of `ListenAndServeHandler` (main.go lines 157-164): a non-nil
error from `ListenAndServe` is logged and the process exits with status 1;
otherwise the function returns normally. -/
def ListenAndServeHandler (env : AppEnv) : ProcResult :=
  match (ListenAndServe env).result with
  | .ret (some _) => .exit 1
  | .ret none => .ret none
  | r => r

/-! Concrete environments used to evaluate the embedded functions on
specific configurations. -/

/-- A listener environment in which every `net.Listen` succeeds and every
`os.Remove` succeeds. -/
def lenvOk : ListenerEnv :=
  { netListen := fun _ _ => .ok { id := 5 }, removeFails := fun _ => false }

/-- A ziti environment in which the identity file is not accessible, so
`CreateZitiListener` returns nil. -/
def zitiUnavailEnv : ZitiEnv :=
  { identityAccessible := false, configLoad := .ok (), contextNew := .ok ()
    listen := .ok { id := 9 } }

/-- A ziti environment in which every step succeeds and the listener with
id 9 is produced. -/
def zitiGotEnv : ZitiEnv :=
  { identityAccessible := true, configLoad := .ok (), contextNew := .ok ()
    listen := .ok { id := 9 } }

/-- ziti-only mode with the ziti listener unavailable. -/
def envC1 : Env :=
  { zitiOnly := true, webSystemdSocket := none, webListenAddresses := none
    ziti := zitiUnavailEnv, activationListeners := .ok [], lenv := lenvOk
    serveMultiple := fun _ => none }

/-- ziti-only mode with the ziti listener available. -/
def envC1g : Env := { envC1 with ziti := zitiGotEnv }

/-- No systemd-socket flag, empty address list, no exclusive extension. -/
def envC2 : Env :=
  { zitiOnly := false, webSystemdSocket := none, webListenAddresses := some []
    ziti := zitiUnavailEnv, activationListeners := .ok [], lenv := lenvOk
    serveMultiple := fun _ => none }

/-- Socket activation requested; descriptor retrieval fails. -/
def envC3err : Env :=
  { zitiOnly := false, webSystemdSocket := some true
    webListenAddresses := some ["a"], ziti := zitiUnavailEnv
    activationListeners := .error (.ioError "fd"), lenv := lenvOk
    serveMultiple := fun _ => none }

/-- Socket activation requested; zero descriptors are handed over. -/
def envC3zero : Env :=
  { zitiOnly := false, webSystemdSocket := some true, webListenAddresses := none
    ziti := zitiUnavailEnv, activationListeners := .ok [], lenv := lenvOk
    serveMultiple := fun _ => none }

/-- Three configured addresses; opening the second one fails. -/
def envC4 : Env :=
  { zitiOnly := false, webSystemdSocket := some false
    webListenAddresses := some ["a1", "b", "c"], ziti := zitiUnavailEnv
    activationListeners := .ok []
    lenv := { netListen := fun _ a =>
                if a = "b" then .error (.ioError "refused") else .ok { id := 7 }
              removeFails := fun _ => false }
    serveMultiple := fun _ => none }

/-- One configured address that opens fine; ziti extension unavailable. -/
def envC5 : Env :=
  { zitiOnly := false, webSystemdSocket := some false
    webListenAddresses := some ["a1"], ziti := zitiUnavailEnv
    activationListeners := .ok [], lenv := lenvOk
    serveMultiple := fun _ => none }

/-- Systemd-socket flag present but false, empty address list, ziti
unavailable: listener selection succeeds with an empty listener set. -/
def envC8 : Env :=
  { zitiOnly := false, webSystemdSocket := some false
    webListenAddresses := some [], ziti := zitiUnavailEnv
    activationListeners := .ok [], lenv := lenvOk
    serveMultiple := fun _ => none }

/-- A serving run that ends with the `http.ErrServerClosed` sentinel. -/
def envC6closed : AppEnv :=
  { metricsPath := "/metrics", landingPageFlag := true
    landingPageCreation := .ok ()
    serve := { zitiOnly := false, webSystemdSocket := some true
               webListenAddresses := none, ziti := zitiUnavailEnv
               activationListeners := .ok [{ id := 3 }], lenv := lenvOk
               serveMultiple := fun _ => some .serverClosed } }

/-- A serving run that ends with a non-sentinel error. -/
def envC6err : AppEnv :=
  { envC6closed with
    serve := { envC6closed.serve with serveMultiple := fun _ => some (.ioError "boom") } }

/-- Standard app environment over `envC5`. -/
def envC10 : AppEnv :=
  { metricsPath := "/metrics", landingPageFlag := true
    landingPageCreation := .ok (), serve := envC5 }

/-- Like `envC10` but with the metrics handler mounted on the root path. -/
def envC10root : AppEnv := { envC10 with metricsPath := "/" }

/-! Helper lemmas about the sequential open loop. -/

/-- When every address opens successfully, the loop attempts all of them in
order, opens them all in order, and reports no failure. -/
theorem openListeners_all_ok (f : String → Except Err NetListener) :
    ∀ addrs : List String, (∀ a ∈ addrs, ∃ l, f a = .ok l) →
    openListeners f addrs =
      { attempted := addrs, opened := addrs.map (okValue f), failure := none } := by
  intro addrs
  induction addrs with
  | nil => intro _; rfl
  | cons a rest ih =>
    intro h
    obtain ⟨l, hl⟩ := h a (List.mem_cons_self a rest)
    simp [openListeners, hl, ih (fun b hb => h b (List.mem_cons_of_mem a hb)),
      okValue]

/-- When every address before `bad` opens successfully and `bad` fails, the
loop stops at `bad`: it attempted exactly the prefix up to and including
`bad`, opened exactly the listeners of the prefix, and reports the error. -/
theorem openListeners_fail (f : String → Except Err NetListener) :
    ∀ (pre : List String) (bad : String) (rest : List String) (e : Err),
    (∀ b ∈ pre, ∃ l, f b = .ok l) → f bad = .error e →
    openListeners f (pre ++ bad :: rest) =
      { attempted := pre ++ [bad], opened := pre.map (okValue f)
        failure := some e } := by
  intro pre
  induction pre with
  | nil =>
    intro bad rest e _ hbad
    simp [openListeners, hbad]
  | cons a p ih =>
    intro bad rest e hok hbad
    obtain ⟨l, hl⟩ := hok a (List.mem_cons_self a p)
    simp [openListeners, hl,
      ih bad rest e (fun b hb => hok b (List.mem_cons_of_mem a hb)) hbad, okValue]

/-- If the loop finished without failure but opened nothing, the address
list was empty. -/
theorem openListeners_opened_nil (f : String → Except Err NetListener)
    (addrs : List String)
    (hf : (openListeners f addrs).failure = none)
    (hop : (openListeners f addrs).opened = []) : addrs = [] := by
  cases addrs with
  | nil => rfl
  | cons a rest =>
    cases hfa : f a with
    | error e =>
      rw [openListeners] at hf
      simp [hfa] at hf
    | ok l =>
      rw [openListeners] at hop
      simp [hfa] at hop

/-- C1: In ziti-only mode, listener selection invokes the ziti provider
(exactly once); if the provider yields no listener the process stops with
`os.Exit 1`; otherwise the set handed to the serve loop is exactly that one
listener, and neither explicit addresses, nor socket activation, nor the
non-exclusive extension path are consulted. -/
theorem zitiOnly_exclusive_selection (env : Env) (h : env.zitiOnly = true) :
    (listenAndServe env).zitiCalls = 1 ∧
    (listenAndServe env).activationConsulted = false ∧
    (listenAndServe env).openAttempts = [] ∧
    (CreateZitiListener env.ziti = ZitiOutcome.unavailable →
      (listenAndServe env).result = ProcResult.exit 1 ∧
      (listenAndServe env).served = none) ∧
    (∀ l, CreateZitiListener env.ziti = ZitiOutcome.got l →
      (listenAndServe env).served = some [l] ∧
      (listenAndServe env).result = ProcResult.ret (env.serveMultiple [l])) := by
  rcases hzo : CreateZitiListener env.ziti with _ | m | c | l <;>
    simp [listenAndServe, h, hzo]

/-- C1 witness: concrete ziti-only runs, one with the provider unavailable
(process exits with status 1) and one with the provider producing listener 9
(serve loop gets exactly that listener). -/
theorem zitiOnly_exclusive_selection_witness :
    envC1.zitiOnly = true ∧
    CreateZitiListener envC1.ziti = ZitiOutcome.unavailable ∧
    (listenAndServe envC1).result = ProcResult.exit 1 ∧
    (listenAndServe envC1g).served = some [{ id := 9 }] :=
  ⟨rfl, rfl,
    ((zitiOnly_exclusive_selection envC1 rfl).2.2.2.1 rfl).1,
    ((zitiOnly_exclusive_selection envC1g rfl).2.2.2.2 { id := 9 } rfl).1⟩

/-- C2: with no exclusive extension, the systemd-socket pointer nil, and the
address list nil or empty, selection returns `web.ErrNoListeners` as an
error value (a normal return, not an exit), opens no listener, and consults
neither socket activation nor the extension provider. -/
theorem noListeners_config_error (env : Env) (hz : env.zitiOnly = false)
    (hs : env.webSystemdSocket = none)
    (ha : addrsMissing env.webListenAddresses = true) :
    (listenAndServe env).result = ProcResult.ret (some Err.noListeners) ∧
    (listenAndServe env).openAttempts = [] ∧
    (listenAndServe env).activationConsulted = false ∧
    (listenAndServe env).zitiCalls = 0 ∧
    (listenAndServe env).served = none := by
  simp [listenAndServe, hz, hs, ha]

/-- C2 witness: the concrete configuration with no systemd flag and an empty
address list returns the no-listeners error. -/
theorem noListeners_config_error_witness :
    envC2.zitiOnly = false ∧ envC2.webSystemdSocket = none ∧
    addrsMissing envC2.webListenAddresses = true ∧
    (listenAndServe envC2).result = ProcResult.ret (some Err.noListeners) :=
  ⟨rfl, rfl, rfl, (noListeners_config_error envC2 rfl rfl rfl).1⟩

/-- C7: for every address classified as a unix socket, `createListener`
registers a SIGINT/SIGTERM handler that removes the socket file and exits
with status 1, schedules removal of the socket file when `createListener`
itself returns, and its returned value is exactly the `net.Listen` result —
independent of whether the removal fails (a failing removal only sets the
warning flag). -/
theorem unix_socket_cleanup (le : ListenerEnv) (address : String)
    (h : isUnixSocket address = true) :
    (createListener le address).signalHandler =
      some { removesPath := address, exitCode := 1 } ∧
    (createListener le address).deferredRemoval = some address ∧
    (createListener le address).result = le.netListen "unix" address ∧
    (createListener le address).warnedRemovalFailure = le.removeFails address := by
  simp [createListener, h]

/-- C7 witness: the unix address "/tmp/x.sock" gets the signal handler that
removes it and exits with status 1. -/
theorem unix_socket_cleanup_witness :
    isUnixSocket "/tmp/x.sock" = true ∧
    (createListener lenvOk "/tmp/x.sock").signalHandler =
      some { removesPath := "/tmp/x.sock", exitCode := 1 } :=
  ⟨by decide, (unix_socket_cleanup lenvOk "/tmp/x.sock" (by decide)).1⟩

/-- C9: `createListener` classifies an address as a unix-domain socket
(listen type "unix") exactly when its character sequence begins with the
path separator and ends with one of the recognized socket suffixes; every
other address gets listen type "tcp"; in particular "/run/app.sock" and
"/tmp/x.socket" classify as unix while "127.0.0.1:9633" and ":9633"
classify as TCP. -/
theorem address_classification (le : ListenerEnv) :
    (∀ address : String,
      ((createListener le address).listenType = "unix" ↔
        (∃ t, '/' :: t = address.data) ∧
        ((∃ p, p ++ ".socket".data = address.data) ∨
         (∃ p, p ++ ".sock".data = address.data))) ∧
      ((createListener le address).listenType = "unix" ∨
       (createListener le address).listenType = "tcp")) ∧
    (createListener le "/run/app.sock").listenType = "unix" ∧
    (createListener le "/tmp/x.socket").listenType = "unix" ∧
    (createListener le "127.0.0.1:9633").listenType = "tcp" ∧
    (createListener le ":9633").listenType = "tcp" := by
  have hchar : ∀ address : String, isUnixSocket address = true ↔
      (∃ t, '/' :: t = address.data) ∧
      ((∃ p, p ++ ".socket".data = address.data) ∨
       (∃ p, p ++ ".sock".data = address.data)) := by
    intro address
    unfold isUnixSocket goHasPrefix goHasSuffix
    rw [Bool.and_eq_true, Bool.or_eq_true,
      List.isPrefixOf_iff_prefix, List.isSuffixOf_iff_suffix,
      List.isSuffixOf_iff_suffix]
    rfl
  refine ⟨fun address => ⟨?_, ?_⟩, ?_, ?_, ?_, ?_⟩
  · rw [← hchar address]
    cases hu : isUnixSocket address <;> simp [createListener, hu]
  · cases hu : isUnixSocket address <;> simp [createListener, hu]
  all_goals
    simp [createListener, show isUnixSocket "/run/app.sock" = true from by decide,
      show isUnixSocket "/tmp/x.socket" = true from by decide,
      show isUnixSocket "127.0.0.1:9633" = false from by decide,
      show isUnixSocket ":9633" = false from by decide]

/-- C3 counterexample: with socket activation requested and zero
descriptors handed over, the code returns the error built from the message
"no socket activation file descriptors found", which is not the error with
the message "no socket activation descriptors found" stated by the claim. -/
theorem socket_activation_message_cex :
    (listenAndServe envC3zero).result =
      ProcResult.ret (some (Err.errorNew "no socket activation file descriptors found")) ∧
    Err.errorNew "no socket activation file descriptors found" ≠
      Err.errorNew "no socket activation descriptors found" :=
  ⟨rfl, by decide⟩

/-- C3 (amended): when socket activation is requested (and ziti-only mode is
off), selection calls `activation.Listeners()`; a retrieval failure is
returned as-is, zero descriptors yields the distinct error
`errors.New("no socket activation file descriptors found")`, at least one
descriptor is served as-is, and in this branch no address is opened and the
extension provider is never invoked. -/
theorem socket_activation_branch (env : Env)
    (hz : env.zitiOnly = false)
    (hs : env.webSystemdSocket = some true) :
    (listenAndServe env).activationConsulted = true ∧
    (listenAndServe env).openAttempts = [] ∧
    (listenAndServe env).zitiCalls = 0 ∧
    (∀ e, env.activationListeners = Except.error e →
      (listenAndServe env).result = ProcResult.ret (some e)) ∧
    (env.activationListeners = Except.ok [] →
      (listenAndServe env).result =
        ProcResult.ret (some (Err.errorNew "no socket activation file descriptors found"))) ∧
    (∀ ls, env.activationListeners = Except.ok ls → ls ≠ [] →
      (listenAndServe env).served = some ls) := by
  rcases hact : env.activationListeners with e | ls
  · simp [listenAndServe, hz, hs, hact, systemdRequested]
  · rcases ls with _ | ⟨l, ls2⟩
    · simp [listenAndServe, hz, hs, hact, systemdRequested]
    · simp [listenAndServe, hz, hs, hact, systemdRequested]

/-- C3 witness: concrete runs of the socket-activation branch, one with zero
descriptors (the distinct fresh error) and one with a failing retrieval
(the failure is propagated unchanged). -/
theorem socket_activation_branch_witness :
    envC3zero.zitiOnly = false ∧ envC3zero.webSystemdSocket = some true ∧
    envC3zero.activationListeners = Except.ok [] ∧
    (listenAndServe envC3zero).result =
      ProcResult.ret (some (Err.errorNew "no socket activation file descriptors found")) ∧
    (listenAndServe envC3err).result = ProcResult.ret (some (Err.ioError "fd")) :=
  ⟨rfl, rfl, rfl,
    (socket_activation_branch envC3zero rfl rfl).2.2.2.2.1 rfl,
    (socket_activation_branch envC3err rfl rfl).2.2.2.1 (Err.ioError "fd") rfl⟩

/-- C4: in the address-list branch, if every address before `bad` opens and
opening `bad` fails with `e`, then startup aborts returning `e`, the serve
loop is never entered, exactly the prefix up to and including `bad` was
attempted in configured order, the already-opened listeners (and only
those) are closed by the deferred releases, and the extension provider is
never consulted. -/
theorem open_failure_aborts (env : Env) (pre : List String) (bad : String)
    (rest : List String) (e : Err)
    (hz : env.zitiOnly = false)
    (hs : systemdRequested env.webSystemdSocket = false)
    (ha : env.webListenAddresses = some (pre ++ bad :: rest))
    (hok : ∀ b ∈ pre, ∃ l, (createListener env.lenv b).result = .ok l)
    (hbad : (createListener env.lenv bad).result = .error e) :
    (listenAndServe env).result = ProcResult.ret (some e) ∧
    (listenAndServe env).served = none ∧
    (listenAndServe env).openAttempts = pre ++ [bad] ∧
    (listenAndServe env).closedOnReturn =
      (pre.map (okValue fun a => (createListener env.lenv a).result)).reverse ∧
    (listenAndServe env).zitiCalls = 0 := by
  have hmiss : addrsMissing (some (pre ++ bad :: rest)) = false := by
    simp [addrsMissing]
  have hopen := openListeners_fail (fun a => (createListener env.lenv a).result)
    pre bad rest e hok hbad
  simp [listenAndServe, hz, hs, ha, hmiss, hopen]

/-- C4 witness: with addresses ["a1", "b", "c"] where "b" fails to open,
the run returns the open error, serves nothing, attempts only ["a1", "b"],
and closes the listener opened for "a1". -/
theorem open_failure_aborts_witness :
    (createListener envC4.lenv "b").result = Except.error (Err.ioError "refused") ∧
    (listenAndServe envC4).result = ProcResult.ret (some (Err.ioError "refused")) ∧
    (listenAndServe envC4).served = none ∧
    (listenAndServe envC4).openAttempts = ["a1", "b"] ∧
    (listenAndServe envC4).closedOnReturn = [{ id := 7 }] := by
  have h := open_failure_aborts envC4 ["a1"] "b" ["c"] (Err.ioError "refused")
    rfl rfl rfl
    (by
      intro b hb
      simp at hb
      subst hb
      exact ⟨{ id := 7 }, rfl⟩)
    rfl
  exact ⟨rfl, h.1, h.2.1, h.2.2.1, h.2.2.2.1⟩

/-- C5: in the non-exclusive path, once every configured address has been
opened, the ziti extension provider is invoked exactly once; a listener it
produces is appended after the address listeners in the set handed to the
serve loop, and if it is unavailable it is skipped without any fatal
behavior (the run proceeds to serve exactly the address listeners). -/
theorem nonexclusive_extension_once (env : Env) (addrs : List String)
    (hz : env.zitiOnly = false)
    (hb2 : (env.webSystemdSocket.isNone && addrsMissing env.webListenAddresses) = false)
    (hs : systemdRequested env.webSystemdSocket = false)
    (ha : env.webListenAddresses = some addrs)
    (hok : ∀ a ∈ addrs, ∃ l, (createListener env.lenv a).result = .ok l) :
    (listenAndServe env).zitiCalls = 1 ∧
    (CreateZitiListener env.ziti = ZitiOutcome.unavailable →
      (listenAndServe env).served =
        some (addrs.map (okValue fun a => (createListener env.lenv a).result)) ∧
      (listenAndServe env).result =
        ProcResult.ret (env.serveMultiple
          (addrs.map (okValue fun a => (createListener env.lenv a).result)))) ∧
    (∀ l, CreateZitiListener env.ziti = ZitiOutcome.got l →
      (listenAndServe env).served =
        some (addrs.map (okValue fun a => (createListener env.lenv a).result) ++ [l]) ∧
      (listenAndServe env).result =
        ProcResult.ret (env.serveMultiple
          (addrs.map (okValue fun a => (createListener env.lenv a).result) ++ [l]))) := by
  have hb2a : (env.webSystemdSocket.isNone && addrsMissing (some addrs)) = false := by
    rw [← ha]; exact hb2
  have hopen := openListeners_all_ok (fun a => (createListener env.lenv a).result) addrs hok
  rcases hzo : CreateZitiListener env.ziti with _ | m | c | l <;>
    simp [listenAndServe, hz, hs, ha, hb2, hb2a, hopen, hzo]

/-- C5 witness: one address that opens as listener 5, ziti unavailable: the
provider is invoked once, skipped, and the run serves exactly listener 5. -/
theorem nonexclusive_extension_once_witness :
    CreateZitiListener envC5.ziti = ZitiOutcome.unavailable ∧
    (listenAndServe envC5).zitiCalls = 1 ∧
    (listenAndServe envC5).served = some [{ id := 5 }] ∧
    (listenAndServe envC5).result = ProcResult.ret none := by
  have h := nonexclusive_extension_once envC5 ["a1"] rfl rfl rfl rfl
    (by
      intro a ha2
      simp at ha2
      subst ha2
      exact ⟨{ id := 5 }, rfl⟩)
  exact ⟨rfl, h.1, (h.2.1 rfl).1, (h.2.1 rfl).2⟩

/-- C6: when the landing page is buildable, a serving run that ends with the
`http.ErrServerClosed` sentinel makes `ListenAndServe` return nil, while any
other returned error is passed through unchanged and makes the
`ListenAndServeHandler` wrapper exit with status 1. -/
theorem graceful_shutdown_sentinel (env : AppEnv)
    (hcreate : env.landingPageCreation = Except.ok ()) :
    ((listenAndServe env.serve).result = ProcResult.ret (some Err.serverClosed) →
      (ListenAndServe env).result = ProcResult.ret none) ∧
    (∀ e, e ≠ Err.serverClosed →
      (listenAndServe env.serve).result = ProcResult.ret (some e) →
      (ListenAndServe env).result = ProcResult.ret (some e) ∧
      ListenAndServeHandler env = ProcResult.exit 1) := by
  constructor
  · intro hres
    by_cases hc : env.metricsPath ≠ "/" ∧ env.metricsPath ≠ "" ∧ env.landingPageFlag = true
    · simp [ListenAndServe, hc, hcreate, hres, afterServe, errorsIs]
    · simp [ListenAndServe, hc, hres, afterServe, errorsIs]
  · intro e he hres
    have hls : (ListenAndServe env).result = ProcResult.ret (some e) := by
      by_cases hc : env.metricsPath ≠ "/" ∧ env.metricsPath ≠ "" ∧ env.landingPageFlag = true
      · simp [ListenAndServe, hc, hcreate, hres, afterServe, errorsIs, he]
      · simp [ListenAndServe, hc, hres, afterServe, errorsIs, he]
    exact ⟨hls, by simp [ListenAndServeHandler, hls]⟩

/-- C6 witness: a run ending with the sentinel returns nil; a run ending
with another error returns it and the wrapper exits with status 1. -/
theorem graceful_shutdown_sentinel_witness :
    envC6closed.landingPageCreation = Except.ok () ∧
    (listenAndServe envC6closed.serve).result = ProcResult.ret (some Err.serverClosed) ∧
    (ListenAndServe envC6closed).result = ProcResult.ret none ∧
    (ListenAndServe envC6err).result = ProcResult.ret (some (Err.ioError "boom")) ∧
    ListenAndServeHandler envC6err = ProcResult.exit 1 := by
  have h1 := (graceful_shutdown_sentinel envC6closed rfl).1 rfl
  have h2 := (graceful_shutdown_sentinel envC6err rfl).2 (Err.ioError "boom") (by decide) rfl
  exact ⟨rfl, rfl, h1, h2.1, h2.2⟩

/-- C8 counterexample: with the systemd-socket flag present but false, an
empty configured address list and an unavailable ziti extension, listener
selection succeeds (`web.ServeMultiple` returns nil) yet the set handed to
the serve loop is empty — the claimed invariant fails. -/
theorem empty_listener_set_served_cex :
    (listenAndServe envC8).served = some [] ∧
    (listenAndServe envC8).result = ProcResult.ret none :=
  ⟨rfl, rfl⟩

/-- C8 (amended): whenever the serve loop is entered, the listener set is
non-empty except in the single degenerate configuration in which the
systemd-socket flag is present but false, the configured address list is
present but empty, and the ziti extension is unavailable — then the serve
loop is entered with the empty set. -/
theorem serve_loop_nonempty_amended (env : Env) (ls : List NetListener)
    (h : (listenAndServe env).served = some ls) (hemp : ls = []) :
    env.webListenAddresses = some [] ∧ env.webSystemdSocket = some false ∧
    CreateZitiListener env.ziti = ZitiOutcome.unavailable := by
  subst hemp
  by_cases h1 : env.zitiOnly = true
  · rcases hzo : CreateZitiListener env.ziti with _ | m | c | l <;>
      simp [listenAndServe, h1, hzo] at h
  · rw [Bool.not_eq_true] at h1
    rcases hsys : env.webSystemdSocket with _ | b
    · rcases haddr : env.webListenAddresses with _ | addrs
      · simp [listenAndServe, h1, hsys, haddr, addrsMissing, systemdRequested] at h
      · rcases addrs with _ | ⟨a, rest⟩
        · simp [listenAndServe, h1, hsys, haddr, addrsMissing, systemdRequested] at h
        · rcases hfail : (openListeners
              (fun x => (createListener env.lenv x).result) (a :: rest)).failure with _ | e
          · rcases hzo : CreateZitiListener env.ziti with _ | m | c | l <;>
              simp [listenAndServe, h1, hsys, haddr, addrsMissing, systemdRequested,
                hfail, hzo] at h
            have haddrs := openListeners_opened_nil
              (fun x => (createListener env.lenv x).result) (a :: rest) hfail h
            simp at haddrs
          · simp [listenAndServe, h1, hsys, haddr, addrsMissing, systemdRequested,
              hfail] at h
    · cases b with
      | true =>
        rcases hact : env.activationListeners with e | als
        · simp [listenAndServe, h1, hsys, hact, systemdRequested] at h
        · rcases als with _ | ⟨l, als2⟩ <;>
            simp [listenAndServe, h1, hsys, hact, systemdRequested] at h
      | false =>
        rcases haddr : env.webListenAddresses with _ | addrs
        · simp [listenAndServe, h1, hsys, haddr, addrsMissing, systemdRequested] at h
        · rcases hfail : (openListeners
              (fun x => (createListener env.lenv x).result) addrs).failure with _ | e
          · rcases hzo : CreateZitiListener env.ziti with _ | m | c | l <;>
              simp [listenAndServe, h1, hsys, haddr, addrsMissing, systemdRequested,
                hfail, hzo] at h
            have haddrs := openListeners_opened_nil
              (fun x => (createListener env.lenv x).result) addrs hfail h
            subst haddrs
            exact ⟨rfl, rfl, rfl⟩
          · simp [listenAndServe, h1, hsys, haddr, addrsMissing, systemdRequested,
              hfail] at h

/-- C8 witness for the amended statement: the degenerate configuration is
exactly the one of the counterexample environment. -/
theorem serve_loop_nonempty_amended_witness :
    (listenAndServe envC8).served = some [] ∧
    (envC8.webListenAddresses = some [] ∧ envC8.webSystemdSocket = some false ∧
      CreateZitiListener envC8.ziti = ZitiOutcome.unavailable) :=
  ⟨rfl, serve_loop_nonempty_amended envC8 [] rfl rfl⟩

/-- C10: no landing-page handler is ever registered on "/" when the metrics
path is "/" or empty (even with the landing-page flag on); and when the
landing page is buildable, it is registered on "/" exactly when the metrics
path differs from both "/" and "" and the landing-page flag is on. -/
theorem landing_page_registration (env : AppEnv) :
    ((env.metricsPath = "/" ∨ env.metricsPath = "") →
      ("/", HandlerKind.landing) ∉ (ListenAndServe env).registrations) ∧
    (env.landingPageCreation = Except.ok () →
      ((("/", HandlerKind.landing) ∈ (ListenAndServe env).registrations) ↔
        (env.metricsPath ≠ "/" ∧ env.metricsPath ≠ "" ∧ env.landingPageFlag = true))) := by
  constructor
  · intro hor
    have hc : ¬(env.metricsPath ≠ "/" ∧ env.metricsPath ≠ "" ∧ env.landingPageFlag = true) := by
      rcases hor with h | h <;> simp [h]
    simp [ListenAndServe, hc]
  · intro hcreate
    by_cases hc : env.metricsPath ≠ "/" ∧ env.metricsPath ≠ "" ∧ env.landingPageFlag = true
    · simp [ListenAndServe, hc, hcreate]
    · simp [ListenAndServe, hc]

/-- C10 witness: with metrics path "/metrics" the landing page is registered
on "/", and with metrics path "/" it is not even though the flag is on. -/
theorem landing_page_registration_witness :
    (("/", HandlerKind.landing) ∈ (ListenAndServe envC10).registrations) ∧
    envC10root.metricsPath = "/" ∧ envC10root.landingPageFlag = true ∧
    (("/", HandlerKind.landing) ∉ (ListenAndServe envC10root).registrations) :=
  ⟨((landing_page_registration envC10).2 rfl).mpr (by decide), rfl, rfl,
    (landing_page_registration envC10root).1 (Or.inl rfl)⟩
